import Mathlib

/-! Shallow embedding of the bootstrap / lifecycle layer in `src/main.go` of
AccelByte/example-crew-and-game-matchmakers-grpc-golang.

Pure data (the interceptor chains, configuration resolution, port constants) is
modelled directly.  The effectful startup sequence of `main` is modelled as a
function from an environment of external outcomes (did each bind / construction
/ flush succeed, which termination signal eventually arrives, which command-line
arguments were supplied) to the ordered trace of observable events together with
the final process exit status.

`logrus.Fatalf` / `logrus.Fatal` / `log.Fatal` terminate the process via
os.Exit, so deferred functions do not run past such a point: the modelled trace
simply stops there with a fatal exit status.  Failures inside background
goroutines (the metrics listener at main.go:158-161, the serve loop at
main.go:189-194) also terminate the whole process through log.Fatal /
logrus.Fatalf; the model takes the interleaving in which such a failure is
observed at the point the goroutine is spawned, which preserves the final exit
status of the process. -/

namespace MMServer

/-- The three kinds of interception hooks wired in src/main.go:111-135: the
OpenTelemetry tracing hook (`otelgrpc`), the go-grpc-prometheus metrics hook,
and the optional auth hook from pkg/server. -/
inductive Hook where
  | tracing
  | metrics
  | auth
deriving DecidableEq, Repr

/-- src/main.go:111-114 together with 132: the unary chain starts as
`[otelgrpc.UnaryServerInterceptor(), prometheusGrpc.UnaryServerInterceptor]`
and, exactly when auth is enabled, `server.UnaryAuthServerIntercept` is
appended at the end. -/
def unaryServerInterceptors (authEnabled : Bool) : List Hook :=
  let base := [Hook.tracing, Hook.metrics]
  if authEnabled then base ++ [Hook.auth] else base

/-- src/main.go:115-118 together with 133: the streaming chain starts as
`[otelgrpc.StreamServerInterceptor(), prometheusGrpc.StreamServerInterceptor]`
and, exactly when auth is enabled, `server.StreamAuthServerIntercept` is
appended at the end. -/
def streamServerInterceptors (authEnabled : Bool) : List Hook :=
  let base := [Hook.tracing, Hook.metrics]
  if authEnabled then base ++ [Hook.auth] else base

/-- Lower-casing of an ASCII character, modelling Go's `strings.ToLower` as it
acts on the configuration strings involved here. -/
def lowerChar (c : Char) : Char :=
  if 65 ≤ c.toNat ∧ c.toNat ≤ 90 then Char.ofNat (c.toNat + 32) else c

/-- Lower-casing of a string, modelling Go's `strings.ToLower` at
src/main.go:120. -/
def lowerString (s : String) : String := ⟨s.data.map lowerChar⟩

/-- Modelled from the spec: the Configuration Resolver `server.GetEnv` of
pkg/server (called at src/main.go:120; pkg/server is not among the reviewed
sources).  Per the spec it is pure and total: absent environment input yields
the default.  The process environment is abstracted as a partial map from
variable names to values. -/
def getEnv (envMap : String → Option String) (name deflt : String) : String :=
  (envMap name).getD deflt

/-- src/main.go:120: auth is enabled iff PLUGIN_GRPC_SERVER_AUTH_ENABLED,
defaulting to "false", lower-cases to "true". -/
def authEnabledOf (envMap : String → Option String) : Bool :=
  lowerString (getEnv envMap "PLUGIN_GRPC_SERVER_AUTH_ENABLED" "false") == "true"

/-- Default of the -gamePort flag (src/main.go:60). -/
def gamePortDefault : Nat := 6565

/-- Value held by the gamePort flag variable at a read: `flag.Int` initialises
it to its default (src/main.go:60) and only `flag.Parse` (src/main.go:223)
overwrites it with a supplied command-line argument, so before `flag.Parse` has
run the variable still holds the default whatever was supplied. -/
def gamePortValue (parsed : Bool) (arg : Option Nat) : Nat :=
  if parsed then arg.getD gamePortDefault else gamePortDefault

/-- Port of the profiling endpoint (src/main.go:103). -/
def pprofEndpointPort : Nat := 6060

/-- Port of the metrics endpoint (src/main.go:160). -/
def metricsEndpointPort : Nat := 8080

/-- Path of the metrics endpoint (src/main.go:159). -/
def metricsEndpointPath : String := "/metrics"

/-- The two termination signals registered at src/main.go:225. -/
inductive Sig where
  | sigint
  | sigterm
deriving DecidableEq, Repr

/-- Final status of the process: clean exit, or termination through a fatal
logging call (logrus.Fatalf / logrus.Fatal / log.Fatal, which call os.Exit with
a non-zero code). -/
inductive ExitStatus where
  | clean
  | fatal
deriving DecidableEq, Repr

/-- Events observable in an execution of `main` (src/main.go:99-228), listed in
program order of the statements that emit them. -/
inductive Event where
  | pprofServe (port : Nat)
  | logPprofServedMsg
  | logPprofBindFailure
  | chainsBuilt (unary stream : List Hook)
  | authValidatorInit
  | metricsServe (port : Nat) (path : String)
  | gameListenBind (port : Nat)
  | serveStart
  | initProviderErrBranch
  | installTracing
  | flagParse
  | blockOnTermination
  | flushTracing
deriving DecidableEq, Repr

/-- Outcomes of the external operations `main` performs, fixed per execution. -/
structure Env where
  authEnabled : Bool
  validatorInitOk : Bool
  pprofBindOk : Bool
  metricsBindOk : Bool
  gamePortArg : Option Nat
  gameListenOk : Bool
  serveOk : Bool
  zipkinOk : Bool
  flushOk : Bool
  signal : Sig
deriving DecidableEq, Repr

/-- initProvider (src/main.go:69-97).  `zipkin.New` can fail; on failure
`logrus.Fatalf` terminates the process inside the call, so initProvider never
returns in that case (modelled as `none`).  On success the function returns the
tracer provider together with a nil error (src/main.go:96); the returned error
value is modelled as an `Option String` and is therefore always `none` whenever
initProvider returns (modelled as `some none`). -/
def initProvider (zipkinOk : Bool) : Option (Option String) :=
  if zipkinOk then some none else none

/-- Modelled from the spec: the blocking auth-validator initialization step
(`server.Validator.Initialize()`, called at src/main.go:130; the validator
implementation lives in pkg/server and the SDK, outside the reviewed sources).
Per the spec this step runs before the server begins accepting calls and its
failure is a fatal startup failure: the process must not reach a serving
state. -/
def authInitStep (ok : Bool) : Except ExitStatus Unit :=
  if ok then Except.ok () else Except.error ExitStatus.fatal

/-- The tail of `main` from the metrics goroutine onward (src/main.go:158-228),
given the trace accumulated so far.  The gameListenBind port is read from the
gamePort flag variable with `parsed := false` because `flag.Parse`
(src/main.go:223) has not yet run at the time of `net.Listen`
(src/main.go:165). -/
def mainTail (env : Env) (t : List Event) : List Event × ExitStatus :=
  let t := t ++ [Event.metricsServe metricsEndpointPort metricsEndpointPath]
  if env.metricsBindOk then
    let t := t ++ [Event.gameListenBind (gamePortValue false env.gamePortArg)]
    if env.gameListenOk then
      let t := t ++ [Event.serveStart]
      if env.serveOk then
        match initProvider env.zipkinOk with
        | none => (t, ExitStatus.fatal)
        | some errVal =>
          if errVal.isSome then (t ++ [Event.initProviderErrBranch], ExitStatus.fatal)
          else
            let t := t ++ [Event.installTracing, Event.flagParse,
              Event.blockOnTermination, Event.flushTracing]
            if env.flushOk then (t, ExitStatus.clean) else (t, ExitStatus.fatal)
      else (t, ExitStatus.fatal)
    else (t, ExitStatus.fatal)
  else (t, ExitStatus.fatal)

/-- Model of `main` (src/main.go:99-228): the ordered trace of observable
events and the final process exit status, as a function of the external
outcomes in `env`.  The pprof goroutine (src/main.go:100-104) discards the
result of `http.ListenAndServe(":6060", nil)`, so no event and no branch
depends on `env.pprofBindOk`, and `Event.logPprofBindFailure` is never emitted;
the message of src/main.go:105 is logged unconditionally.  Which of the two
registered signals cancels the termination context (src/main.go:225-226) is not
observable by the program, so nothing depends on `env.signal`. -/
def mainExec (env : Env) : List Event × ExitStatus :=
  let t := [Event.pprofServe pprofEndpointPort, Event.logPprofServedMsg]
  let t := t ++ [Event.chainsBuilt (unaryServerInterceptors env.authEnabled)
    (streamServerInterceptors env.authEnabled)]
  if env.authEnabled then
    let t := t ++ [Event.authValidatorInit]
    match authInitStep env.validatorInitOk with
    | Except.error st => (t, st)
    | Except.ok _ => mainTail env t
  else
    mainTail env t

/-- The port the primary listener actually binds in an execution: the payload
of the gameListenBind event of the trace, if any. -/
def boundPort (env : Env) : Option Nat :=
  (mainExec env).1.findSome? fun e =>
    match e with
    | Event.gameListenBind p => some p
    | _ => none

/-- An inbound call, abstracted to whether it carries a valid bearer
credential. -/
structure Call where
  validCred : Bool
deriving DecidableEq, Repr

/-- Modelled from the spec: per-hook behavior on a call (the hook
implementations live in external libraries and pkg/server, outside the
reviewed sources).  The tracing and metrics hooks are pass-through
observability hooks; the auth hook rejects a call whose bearer credential is
missing or invalid and passes valid ones through unmodified. -/
def hookAllows : Hook → Call → Bool
  | Hook.auth, c => c.validCred
  | Hook.tracing, _ => true
  | Hook.metrics, _ => true

/-- A call reaches the service handler iff every hook in the chain lets it
through. -/
def reachesHandler (chain : List Hook) (c : Call) : Bool :=
  chain.all fun h => hookAllows h c

/-- An auth-enabled execution environment in which every external operation
succeeds. -/
def envC2 : Env := ⟨true, true, true, true, none, true, true, true, true, Sig.sigint⟩

/-- An execution environment in which -gamePort 7000 was supplied on the
command line and every external operation succeeds. -/
def envC3 : Env := ⟨false, true, true, true, some 7000, true, true, true, true, Sig.sigint⟩

/-- An auth-disabled execution environment in which every external operation
succeeds. -/
def envC5 : Env := ⟨false, true, true, true, none, true, true, true, true, Sig.sigint⟩

/-- An execution environment in which only the shutdown flush of the tracing
provider fails. -/
def envC6 : Env := ⟨false, true, true, true, none, true, true, true, false, Sig.sigterm⟩

/-- An execution environment in which only the metrics-endpoint bind fails. -/
def envC7 : Env := ⟨false, true, true, false, none, true, true, true, true, Sig.sigint⟩

/-- An execution environment in which only the profiling-endpoint bind
fails. -/
def envC8 : Env := ⟨false, true, false, true, none, true, true, true, true, Sig.sigint⟩

/-- An auth-disabled execution environment in which every external operation
succeeds, the interrupt signal arriving. -/
def envC9 : Env := ⟨false, true, true, true, none, true, true, true, true, Sig.sigint⟩

/-- An auth-disabled execution environment in which every external operation
succeeds, the terminate signal arriving. -/
def envC10 : Env := ⟨false, true, true, true, none, true, true, true, true, Sig.sigterm⟩

/-- `mainExec` with the components no branch or event depends on fixed to
arbitrary constants: a normal form for concrete evaluation. -/
def mainExecN (a v m l so z f : Bool) : List Event × ExitStatus :=
  mainExec ⟨a, v, true, m, none, l, so, z, f, Sig.sigint⟩

/-- Helper: an execution does not depend on the profiling-bind outcome, the
supplied -gamePort argument, or which termination signal arrives, so every
execution equals its normal form. -/
theorem mainExec_eq_N (a v p m l so z f : Bool) (g : Option Nat) (s : Sig) :
    mainExec ⟨a, v, p, m, g, l, so, z, f, s⟩ = mainExecN a v m l so z f := rfl

/-- C1: under every configuration, both the unary and the streaming interceptor
chains order the tracing hook strictly before the metrics hook and, when the
auth hook is present, the auth hook strictly last (metrics strictly before
auth); no conditional reordering occurs. -/
theorem interceptorChainOrder (authEnabled : Bool) :
    (unaryServerInterceptors authEnabled).indexOf Hook.tracing <
      (unaryServerInterceptors authEnabled).indexOf Hook.metrics ∧
    (streamServerInterceptors authEnabled).indexOf Hook.tracing <
      (streamServerInterceptors authEnabled).indexOf Hook.metrics ∧
    (Hook.auth ∈ unaryServerInterceptors authEnabled →
      (unaryServerInterceptors authEnabled).indexOf Hook.metrics <
        (unaryServerInterceptors authEnabled).indexOf Hook.auth) ∧
    (Hook.auth ∈ streamServerInterceptors authEnabled →
      (streamServerInterceptors authEnabled).indexOf Hook.metrics <
        (streamServerInterceptors authEnabled).indexOf Hook.auth) := by
  cases authEnabled <;> decide

/-- Witness for C1 at the auth-enabled configuration, where the auth hook is
present in both chains. -/
theorem interceptorChainOrderWitness :
    (unaryServerInterceptors true).indexOf Hook.metrics <
      (unaryServerInterceptors true).indexOf Hook.auth ∧
    (streamServerInterceptors true).indexOf Hook.metrics <
      (streamServerInterceptors true).indexOf Hook.auth :=
  ⟨(interceptorChainOrder true).2.2.1 (by decide),
   (interceptorChainOrder true).2.2.2 (by decide)⟩

/-- C2: when auth is enabled, the blocking validator-initialization step occurs
(and occurs strictly before the server starts accepting calls whenever serving
is reached), and if that step fails the execution never starts serving and ends
with a fatal exit status.  The failure behavior of the initialization step is
modelled from the spec (`authInitStep`). -/
theorem authInitBeforeServing (env : Env) (h : env.authEnabled = true) :
    Event.authValidatorInit ∈ (mainExec env).1 ∧
    (env.validatorInitOk = false →
      (mainExec env).1.count Event.serveStart = 0 ∧
      (mainExec env).2 = ExitStatus.fatal) ∧
    (Event.serveStart ∈ (mainExec env).1 →
      (mainExec env).1.indexOf Event.authValidatorInit <
        (mainExec env).1.indexOf Event.serveStart) := by
  revert h
  obtain ⟨a, v, p, m, g, l, so, z, f, s⟩ := env
  simp only [mainExec_eq_N]
  cases a <;> cases v <;> cases m <;> cases l <;> cases so <;> cases z <;> cases f <;> decide

/-- Witness for C2 at an auth-enabled environment in which every external
operation succeeds. -/
theorem authInitBeforeServingWitness :
    Event.authValidatorInit ∈ (mainExec envC2).1 ∧
    (mainExec envC2).1.indexOf Event.authValidatorInit <
      (mainExec envC2).1.indexOf Event.serveStart :=
  ⟨(authInitBeforeServing envC2 (by decide)).1,
   (authInitBeforeServing envC2 (by decide)).2.2 (by decide)⟩

/-- C3: the -gamePort flag is dead: `flag.Parse()` (src/main.go:223) runs only
after `net.Listen` has already read the flag variable (src/main.go:165), so
even with -gamePort 7000 supplied the listener binds the default port 6565
(and the flag-parse event follows the bind event in the trace); the value the
flag would resolve to once parsed, 7000, is never the bound port. -/
theorem gamePortFlagParsedTooLate :
    envC3.gamePortArg = some 7000 ∧
    gamePortDefault = 6565 ∧
    boundPort envC3 = some 6565 ∧
    gamePortValue true envC3.gamePortArg = 7000 ∧
    (mainExec envC3).1.indexOf (Event.gameListenBind 6565) <
      (mainExec envC3).1.indexOf Event.flagParse := by decide

/-- C4: with the auth-enabled flag false — which is what the option resolves to
when the environment variable is absent — no auth hook is added: both chains
are exactly [tracing, metrics], the auth hook occurs zero times, and every
call, with or without a valid credential, reaches the service handler. -/
theorem authDisabledNoCredentialCheck :
    authEnabledOf (fun _ => none) = false ∧
    unaryServerInterceptors false = [Hook.tracing, Hook.metrics] ∧
    streamServerInterceptors false = [Hook.tracing, Hook.metrics] ∧
    (unaryServerInterceptors false).count Hook.auth = 0 ∧
    (streamServerInterceptors false).count Hook.auth = 0 ∧
    (∀ c : Call, reachesHandler (unaryServerInterceptors false) c = true) ∧
    (∀ c : Call, reachesHandler (streamServerInterceptors false) c = true) :=
  ⟨by decide, rfl, rfl, by decide, by decide, fun _ => rfl, fun _ => rfl⟩

/-- C5: on every execution that installs the tracing provider globally
(src/main.go:207), the serve loop was already started (src/main.go:189) strictly
earlier: the server begins accepting calls before tracing is installed. -/
theorem serveBeforeTracingInstall (env : Env)
    (h : Event.installTracing ∈ (mainExec env).1) :
    Event.serveStart ∈ (mainExec env).1 ∧
    (mainExec env).1.indexOf Event.serveStart <
      (mainExec env).1.indexOf Event.installTracing := by
  revert h
  obtain ⟨a, v, p, m, g, l, so, z, f, s⟩ := env
  simp only [mainExec_eq_N]
  cases a <;> cases v <;> cases m <;> cases l <;> cases so <;> cases z <;> cases f <;> decide

/-- Witness for C5 at an environment in which every external operation
succeeds. -/
theorem serveBeforeTracingInstallWitness :
    Event.serveStart ∈ (mainExec envC5).1 ∧
    (mainExec envC5).1.indexOf Event.serveStart <
      (mainExec envC5).1.indexOf Event.installTracing :=
  serveBeforeTracingInstall envC5 (by decide)

/-- C6: the tracing provider is flushed at most once in any execution and
exactly once on every execution that reaches the shutdown path (the deferred
provider shutdown, src/main.go:217-221), and a flush failure makes the process
exit fatally (logrus.Fatal, src/main.go:219) rather than being ignored. -/
theorem traceFlushOnceAndFatalOnFailure (env : Env) :
    (mainExec env).1.count Event.flushTracing ≤ 1 ∧
    (Event.blockOnTermination ∈ (mainExec env).1 →
      (mainExec env).1.count Event.flushTracing = 1) ∧
    (Event.flushTracing ∈ (mainExec env).1 → env.flushOk = false →
      (mainExec env).2 = ExitStatus.fatal) := by
  obtain ⟨a, v, p, m, g, l, so, z, f, s⟩ := env
  simp only [mainExec_eq_N]
  cases a <;> cases v <;> cases m <;> cases l <;> cases so <;> cases z <;> cases f <;> decide

/-- Witness for C6 at an environment in which only the shutdown flush fails. -/
theorem traceFlushOnceAndFatalOnFailureWitness :
    (mainExec envC6).1.count Event.flushTracing = 1 ∧
    (mainExec envC6).2 = ExitStatus.fatal :=
  ⟨(traceFlushOnceAndFatalOnFailure envC6).2.1 (by decide),
   (traceFlushOnceAndFatalOnFailure envC6).2.2 (by decide) (by decide)⟩

/-- C7: a failure to bind the metrics HTTP endpoint — fixed port 8080, path
"/metrics" (src/main.go:158-161) — is fatal: the execution ends with a fatal
exit status (log.Fatal terminates the process) and never reaches the
steady serving state in which the main flow blocks on the termination
context. -/
theorem metricsBindFailureFatal (env : Env) (h : env.metricsBindOk = false) :
    (mainExec env).2 = ExitStatus.fatal ∧
    (mainExec env).1.count Event.blockOnTermination = 0 ∧
    metricsEndpointPort = 8080 ∧
    metricsEndpointPath = "/metrics" := by
  revert h
  obtain ⟨a, v, p, m, g, l, so, z, f, s⟩ := env
  simp only [mainExec_eq_N]
  cases a <;> cases v <;> cases m <;> cases l <;> cases so <;> cases z <;> cases f <;> decide

/-- Witness for C7 at an environment in which only the metrics-endpoint bind
fails. -/
theorem metricsBindFailureFatalWitness :
    (mainExec envC7).2 = ExitStatus.fatal ∧
    (mainExec envC7).1.count Event.blockOnTermination = 0 ∧
    metricsEndpointPort = 8080 ∧
    metricsEndpointPath = "/metrics" :=
  metricsBindFailureFatal envC7 (by decide)

/-- C8 counterexample: in the execution where the profiling-endpoint bind
fails, no failure is ever logged — src/main.go:103 discards the bind error
(`_ = http.ListenAndServe(":6060", nil)`) — refuting the claim's "but is
logged" part; the process nevertheless continues through startup and serving
and exits cleanly. -/
theorem pprofBindFailureNotLogged :
    envC8.pprofBindOk = false ∧
    (mainExec envC8).1.count Event.logPprofBindFailure = 0 ∧
    Event.serveStart ∈ (mainExec envC8).1 ∧
    (mainExec envC8).2 = ExitStatus.clean := by decide

/-- C8 (amended): a failure to bind the profiling endpoint (port 6060) is
non-fatal but silently ignored rather than logged: the entire execution (trace
and exit status) is independent of the bind outcome, and no bind-failure log
event ever occurs. -/
theorem pprofBindFailureSilentlyIgnored (env : Env) (b : Bool) :
    mainExec ⟨env.authEnabled, env.validatorInitOk, b, env.metricsBindOk, env.gamePortArg,
      env.gameListenOk, env.serveOk, env.zipkinOk, env.flushOk, env.signal⟩ = mainExec env ∧
    (mainExec env).1.count Event.logPprofBindFailure = 0 := by
  obtain ⟨a, v, p, m, g, l, so, z, f, s⟩ := env
  simp only [mainExec_eq_N]
  refine ⟨trivial, ?_⟩
  cases a <;> cases v <;> cases m <;> cases l <;> cases so <;> cases z <;> cases f <;> decide

/-- C9: which of the two registered termination signals arrives is not
observable: the interrupt-signal execution and the terminate-signal execution
are identical, the main flow blocks on the termination context at most once,
and whenever the shutdown flush runs it is preceded by that single block on the
termination context. -/
theorem signalsEquivalentShutdown (env : Env) :
    mainExec ⟨env.authEnabled, env.validatorInitOk, env.pprofBindOk, env.metricsBindOk,
      env.gamePortArg, env.gameListenOk, env.serveOk, env.zipkinOk, env.flushOk, Sig.sigint⟩ =
    mainExec ⟨env.authEnabled, env.validatorInitOk, env.pprofBindOk, env.metricsBindOk,
      env.gamePortArg, env.gameListenOk, env.serveOk, env.zipkinOk, env.flushOk, Sig.sigterm⟩ ∧
    (mainExec env).1.count Event.blockOnTermination ≤ 1 ∧
    (Event.flushTracing ∈ (mainExec env).1 →
      Event.blockOnTermination ∈ (mainExec env).1 ∧
      (mainExec env).1.indexOf Event.blockOnTermination <
        (mainExec env).1.indexOf Event.flushTracing) := by
  obtain ⟨a, v, p, m, g, l, so, z, f, s⟩ := env
  simp only [mainExec_eq_N]
  refine ⟨trivial, ?_⟩
  cases a <;> cases v <;> cases m <;> cases l <;> cases so <;> cases z <;> cases f <;> decide

/-- Witness for C9 at an environment in which every external operation
succeeds. -/
theorem signalsEquivalentShutdownWitness :
    Event.blockOnTermination ∈ (mainExec envC9).1 ∧
    (mainExec envC9).1.indexOf Event.blockOnTermination <
      (mainExec envC9).1.indexOf Event.flushTracing :=
  (signalsEquivalentShutdown envC9).2.2 (by decide)

/-- C10: initProvider never returns a non-nil error — whenever it returns at
all the returned error value is nil (on exporter failure it terminates the
process internally instead, src/main.go:76-78) — and consequently the caller's
error branch after initProvider (src/main.go:199-203) is never taken in any
execution. -/
theorem initProviderNeverReturnsError :
    (∀ ok : Bool, ∀ r : Option String, initProvider ok = some r → r = none) ∧
    (∀ env : Env, (mainExec env).1.count Event.initProviderErrBranch = 0) := by
  constructor
  · intro ok r h
    cases ok
    · exact absurd h (by simp [initProvider])
    · have hr : some (none : Option String) = some r := h
      exact (Option.some.inj hr).symm
  · intro env
    obtain ⟨a, v, p, m, g, l, so, z, f, s⟩ := env
    simp only [mainExec_eq_N]
    cases a <;> cases v <;> cases m <;> cases l <;> cases so <;> cases z <;> cases f <;> decide

/-- Witness for C10: initProvider with a succeeding exporter returns a nil
error, and the error branch does not occur in the all-succeeding execution. -/
theorem initProviderNeverReturnsErrorWitness :
    (none : Option String) = none ∧
    (mainExec envC10).1.count Event.initProviderErrBranch = 0 :=
  ⟨initProviderNeverReturnsError.1 true none rfl,
   initProviderNeverReturnsError.2 envC10⟩

end MMServer
